import Mathlib

/-!
Shallow embedding of the threshold-based alert-generation pipeline of the
industrial-monitoring training application, together with theorems settling
the frozen claims about it.

The embedding follows the Python source:
* `services/sensor_processor.py` (`SensorProcessor`): reading validation,
  threshold checking and severity classification;
* `services/alert_generator.py` (`AlertGenerator`): alert generation,
  querying and acknowledgment;
* `repositories/alerts.py` (`AlertRepository`) and
  `repositories/sensor_data.py` (`SensorDataRepository`): the SQLite-backed
  stores, modelled as explicit state passing over lists of rows.

Python floats are modelled by `PyFloat`: exact rationals plus the non-finite
values `inf`, `-inf` and `nan` (rounding of binary floats is immaterial to
every property treated here).  Python exceptions raised by the modelled code
(`ZeroDivisionError` from the severity computation, `ValueError`/`TypeError`
from `float(...)`) are modelled with `Except`.
-/

/-- Exceptions that the modelled Python code can raise. -/
inductive PyError where
  | zeroDivisionError
  | valueError
  | typeError
deriving DecidableEq, Repr

/-- `str(e)` for the modelled exceptions; only the `ZeroDivisionError`
text (the one produced by float division in CPython) is ever observed by
the code under study. -/
def PyError.msg : PyError → String
  | .zeroDivisionError => "float division by zero"
  | .valueError => "could not convert string to float"
  | .typeError => "float() argument must be a string or a real number"

/-- A Python float: a finite value (exact rational in this model), an
infinity, or `nan`. -/
inductive PyFloat where
  | finite (q : ℚ)
  | inf
  | ninf
  | nan
deriving DecidableEq, Repr

/-- Python `x > q` for a float `x` and a finite rational `q`
(`nan` compares false). -/
def PyFloat.gtQ : PyFloat → ℚ → Bool
  | .finite a, q => a > q
  | .inf, _ => true
  | .ninf, _ => false
  | .nan, _ => false

/-- Python `x < q` for a float `x` and a finite rational `q`
(`nan` compares false). -/
def PyFloat.ltQ : PyFloat → ℚ → Bool
  | .finite a, q => a < q
  | .inf, _ => false
  | .ninf, _ => true
  | .nan, _ => false

/-- Python `x - q` with `q` finite. -/
def PyFloat.subQ : PyFloat → ℚ → PyFloat
  | .finite a, q => .finite (a - q)
  | .inf, _ => .inf
  | .ninf, _ => .ninf
  | .nan, _ => .nan

/-- Python `q - x` with `q` finite. -/
def PyFloat.qSub (q : ℚ) : PyFloat → PyFloat
  | .finite a => .finite (q - a)
  | .inf => .ninf
  | .ninf => .inf
  | .nan => .nan

/-- Python `x / q` with `q` finite: raises `ZeroDivisionError` when `q = 0`. -/
def PyFloat.divQ (x : PyFloat) (q : ℚ) : Except PyError PyFloat :=
  if q = 0 then .error .zeroDivisionError
  else .ok (match x with
    | .finite a => .finite (a / q)
    | .inf => if 0 < q then .inf else .ninf
    | .ninf => if 0 < q then .ninf else .inf
    | .nan => .nan)

/-- Python `x * 100`. -/
def PyFloat.mul100 : PyFloat → PyFloat
  | .finite a => .finite (a * 100)
  | .inf => .inf
  | .ninf => .ninf
  | .nan => .nan

/-- Whether a Python float is a finite real number. -/
def PyFloat.isFinite : PyFloat → Bool
  | .finite _ => true
  | _ => false

/-- A dynamically-typed Python value appearing in the `value` field of a
reading payload: a number (int/float, possibly non-finite), a text string,
or `None` (representing `None` and other non-numeric non-string objects,
all of which make `float(...)` raise `TypeError`). -/
inductive PyVal where
  | num (f : PyFloat)
  | str (s : String)
  | none
deriving DecidableEq, Repr

/-- Numeric value of a digit list (most significant first); digits only. -/
def digitsVal (cs : List Char) : ℕ :=
  cs.foldl (fun n c => 10 * n + (c.toNat - 48)) 0

/-- Sign parsing for Python float literals: an optional leading `+`/`-`. -/
def parseSign : List Char → Bool × List Char
  | '+' :: r => (false, r)
  | '-' :: r => (true, r)
  | r => (false, r)

/-- Exponent suffix of a Python float literal: empty, or `e`/sign/digits
consuming the whole remainder.  Returns the scale exponent. -/
def parseExpPart (cs : List Char) : Option ℤ :=
  match cs with
  | [] => some 0
  | 'e' :: rest =>
    let (neg, rest2) := parseSign rest
    let ds := rest2.takeWhile Char.isDigit
    let rest3 := rest2.dropWhile Char.isDigit
    if ds.isEmpty || !rest3.isEmpty then Option.none
    else some (if neg then -(digitsVal ds : ℤ) else (digitsVal ds : ℤ))
  | _ => Option.none

/-- Unsigned numeric part of a Python float literal:
`digits [. digits] [exp]` or `. digits [exp]`, consuming all input. -/
def parseNumber (cs : List Char) : Option ℚ :=
  let ip := cs.takeWhile Char.isDigit
  let rest1 := cs.dropWhile Char.isDigit
  match rest1 with
  | '.' :: rest2 =>
    let fp := rest2.takeWhile Char.isDigit
    let rest3 := rest2.dropWhile Char.isDigit
    if ip.isEmpty && fp.isEmpty then Option.none
    else
      match parseExpPart rest3 with
      | some e =>
        some (((digitsVal ip : ℚ) + (digitsVal fp : ℚ) / (10 : ℚ) ^ fp.length) * (10 : ℚ) ^ e)
      | Option.none => Option.none
  | _ =>
    if ip.isEmpty then Option.none
    else
      match parseExpPart rest1 with
      | some e => some ((digitsVal ip : ℚ) * (10 : ℚ) ^ e)
      | Option.none => Option.none

/-- Python `float(s)` on a text string: strips surrounding whitespace,
accepts an optional sign followed by `inf`, `infinity`, `nan`
(case-insensitive) or a decimal literal.  Model of the CPython conversion
(subset: no underscore digit separators, exact rational result instead of
a rounded binary float — immaterial to the claims treated here). -/
def pyFloatOfString (s : String) : Option PyFloat :=
  let cs := ((s.data.map Char.toLower).dropWhile Char.isWhitespace).reverse
    |>.dropWhile Char.isWhitespace |>.reverse
  let (neg, rest) := parseSign cs
  if rest = "infinity".data || rest = "inf".data then
    some (if neg then .ninf else .inf)
  else if rest = "nan".data then some .nan
  else
    match parseNumber rest with
    | some q => some (.finite (if neg then -q else q))
    | Option.none => Option.none

/-- Python `float(v)` on a dynamic value: numbers pass through unchanged
(non-finite ones included), strings are parsed (`ValueError` on failure),
anything else raises `TypeError`. -/
def pyFloatConv : PyVal → Except PyError PyFloat
  | .num f => .ok f
  | .str s =>
    match pyFloatOfString s with
    | some f => .ok f
    | Option.none => .error .valueError
  | .none => .error .typeError

/-! ## SensorProcessor (`services/sensor_processor.py`) -/

namespace SensorProcessor

/-- `{min, max}` bounds for one sensor type: the Python dicts in the
threshold table may define either or both keys. -/
structure ThresholdConfig where
  max? : Option ℚ
  min? : Option ℚ
deriving DecidableEq, Repr

/-- A threshold table: the Python dict `sensor_type -> config`, modelled
as an association list with distinct keys, looked up by first match. -/
def ThresholdTable := List (String × ThresholdConfig)

/-- `SensorProcessor.VALID_SENSOR_TYPES`. -/
def VALID_SENSOR_TYPES : List String :=
  ["temperature", "pressure", "vibration", "flow_rate",
   "rpm", "voltage", "current", "humidity"]

/-- `SensorProcessor.DEFAULT_THRESHOLDS`. -/
def DEFAULT_THRESHOLDS : ThresholdTable :=
  [("temperature", ⟨some 80, some (-10)⟩),
   ("pressure", ⟨some 150, some 0⟩),
   ("vibration", ⟨some 10, some 0⟩),
   ("flow_rate", ⟨some 1000, some 0⟩),
   ("rpm", ⟨some 5000, some 0⟩),
   ("voltage", ⟨some 250, some 0⟩),
   ("current", ⟨some 100, some 0⟩),
   ("humidity", ⟨some 100, some 0⟩)]

/-- An incoming reading payload.  `equipment_id` and `sensor_type` are
taken to be present as strings (the claims only concern such readings);
a `value` of `PyVal.none` models the field being `None`/absent, which the
required-field check of `validate_reading` reports as missing. -/
structure Reading where
  equipment_id : String
  sensor_type : String
  value : PyVal
  unit : Option String := Option.none
  timestamp : Option ℕ := Option.none
deriving DecidableEq, Repr

/-- The `Alert` value object constructed by `check_thresholds`
(`services/sensor_processor.py`, class `Alert`). -/
structure Alert where
  equipment_id : String
  sensor_type : String
  value : PyFloat
  threshold : ℚ
  alert_type : String
  severity : String
  message : String
deriving DecidableEq, Repr

/-- Decimal-free printer for the rationals and floats appearing in alert
messages.  (CPython prints floats with its shortest-repr algorithm; the
exact text is immaterial to the claims, which only distinguish the
`exceeds maximum` message from the `below minimum` one.) -/
def pyFloatStr : PyFloat → String
  | .finite q => toString q
  | .inf => "inf"
  | .ninf => "-inf"
  | .nan => "nan"

/-- Message of a maximum-threshold violation ("direction above"). -/
def aboveMessage (sensor_type : String) (value : PyFloat) (m : ℚ) : String :=
  sensor_type ++ " reading " ++ pyFloatStr value ++
    " exceeds maximum threshold " ++ toString m

/-- Message of a minimum-threshold violation ("direction below"). -/
def belowMessage (sensor_type : String) (value : PyFloat) (m : ℚ) : String :=
  sensor_type ++ " reading " ++ pyFloatStr value ++
    " below minimum threshold " ++ toString m

/-- `SensorProcessor._determine_severity`: percent deviation relative to
the crossed bound, mapped to a severity level.  The division raises
`ZeroDivisionError` when the bound is `0`. -/
def determine_severity (value : PyFloat) (threshold : ℚ)
    (threshold_type : String) : Except PyError String :=
  let diff := if threshold_type = "max" then value.subQ threshold
              else PyFloat.qSub threshold value
  match diff.divQ threshold with
  | .error e => .error e
  | .ok ratio =>
    let percent_over := ratio.mul100
    if percent_over.gtQ 50 then .ok "critical"
    else if percent_over.gtQ 25 then .ok "high"
    else if percent_over.gtQ 10 then .ok "medium"
    else .ok "low"

/-- Minimum-threshold branch of `check_thresholds` (the second `if` of the
Python function, reached when the maximum branch did not fire). -/
def minBranch (cfg : ThresholdConfig) (r : Reading) (value : PyFloat) :
    Except PyError (Option Alert) :=
  match cfg.min? with
  | some m =>
    if value.ltQ m then
      match determine_severity value m "min" with
      | .error e => .error e
      | .ok severity =>
        .ok (some { equipment_id := r.equipment_id, sensor_type := r.sensor_type,
                    value := value, threshold := m,
                    alert_type := "threshold_exceeded", severity := severity,
                    message := belowMessage r.sensor_type value m })
    else .ok Option.none
  | Option.none => .ok Option.none

/-- `SensorProcessor.check_thresholds`: converts the reading value with
`float(...)`, looks the sensor type up in the threshold table (absent
types yield no violation), then tests `value > max` and `value < min`
in that order, with strict comparisons. -/
def check_thresholds (thresholds : ThresholdTable) (r : Reading) :
    Except PyError (Option Alert) :=
  match pyFloatConv r.value with
  | .error e => .error e
  | .ok value =>
    match thresholds.lookup r.sensor_type with
    | Option.none => .ok Option.none
    | some cfg =>
      match cfg.max? with
      | some m =>
        if value.gtQ m then
          match determine_severity value m "max" with
          | .error e => .error e
          | .ok severity =>
            .ok (some { equipment_id := r.equipment_id, sensor_type := r.sensor_type,
                        value := value, threshold := m,
                        alert_type := "threshold_exceeded", severity := severity,
                        message := aboveMessage r.sensor_type value m })
        else minBranch cfg r value
      | Option.none => minBranch cfg r value

/-- `SensorProcessor.validate_reading`: required-field check, equipment
lookup, sensor-type whitelist, then numeric conversion of the value.
Returns the `ValidationError` message on failure. -/
def validate_reading (equipment : List String) (r : Reading) :
    Except String Bool :=
  if r.value = PyVal.none then
    .error "Missing required fields: value"
  else if r.equipment_id ∉ equipment then
    .error ("Equipment with ID \x27" ++ r.equipment_id ++ "\x27 not found")
  else if r.sensor_type ∉ VALID_SENSOR_TYPES then
    .error ("Invalid sensor type \x27" ++ r.sensor_type ++ "\x27. Valid types: " ++
      String.intercalate ", " VALID_SENSOR_TYPES)
  else
    match pyFloatConv r.value with
    | .ok _ => .ok true
    | .error _ => .error "Sensor value must be numeric"

/-- A row of the `sensor_readings` table (`SensorDataRepository.create`
stores equipment id, sensor type, raw value, unit and timestamp; the id
is the SQLite rowid). -/
structure StoredReading where
  id : ℕ
  reading : Reading
deriving DecidableEq, Repr

/-- State threaded through `record_reading`: the reading store, its next
rowid, the equipment directory (ids only — only existence is consulted),
and the current clock (`datetime.now()`). -/
structure SensorState where
  readings : List StoredReading
  nextReadingId : ℕ
  equipment : List String
  now : ℕ
deriving DecidableEq, Repr

/-- Payload of a successful `record_reading` result. -/
structure RecordData where
  reading_id : ℕ
  alert : Option Alert
deriving DecidableEq, Repr

/-- The `Result` object of `services/sensor_processor.py`. -/
structure Result where
  success : Bool
  data : Option RecordData := Option.none
  error_message : Option String := Option.none
deriving DecidableEq, Repr

/-- Timestamp defaulting performed by `record_reading` before storing. -/
def defaultTimestamp (now : ℕ) (r : Reading) : Reading :=
  if r.timestamp = Option.none then { r with timestamp := some now } else r

/-- `SensorProcessor.record_reading`: validate, default the timestamp,
store the reading, then check thresholds.  A `ValidationError` is
reported with its own message and nothing is stored; any other exception
(in particular the `ZeroDivisionError` from the severity computation,
raised after the reading has already been stored) is caught by the
generic handler and reported as `Failed to record reading: ...`. -/
def record_reading (thresholds : ThresholdTable) (s : SensorState)
    (r : Reading) : Result × SensorState :=
  match validate_reading s.equipment r with
  | .error e => ({ success := false, error_message := some e }, s)
  | .ok _ =>
    let r2 := defaultTimestamp s.now r
    let rid := s.nextReadingId
    let s2 : SensorState :=
      { s with readings := s.readings ++ [⟨rid, r2⟩], nextReadingId := rid + 1 }
    match check_thresholds thresholds r2 with
    | .error e =>
      ({ success := false,
         error_message := some ("Failed to record reading: " ++ e.msg) }, s2)
    | .ok alert =>
      ({ success := true, data := some ⟨rid, alert⟩ }, s2)

end SensorProcessor

/-! ## AlertRepository (`repositories/alerts.py`) and
AlertGenerator (`services/alert_generator.py`) -/

namespace AlertRepository

/-- A row of the `alerts` table.  `created_at` is stamped by the schema
default (`CURRENT_TIMESTAMP`) at insertion time, modelled by the state
clock; `acknowledged_by`/`acknowledged_at` are NULL until acknowledgment. -/
structure AlertRow where
  id : ℕ
  equipment_id : String
  alert_type : String
  severity : String
  message : String
  status : String
  acknowledged_by : Option String := Option.none
  acknowledged_at : Option ℕ := Option.none
  created_at : ℕ
deriving DecidableEq, Repr

/-- State of the alert store: the rows, the next rowid (every existing
row id is below it), the equipment directory (ids — only existence is
consulted by the service) and the current clock (`datetime.now()`). -/
structure AlertState where
  alerts : List AlertRow
  nextId : ℕ
  equipment : List String
  now : ℕ
deriving DecidableEq, Repr

/-- `AlertRepository.create`: parameterized INSERT of the five supplied
fields; the id is the fresh SQLite rowid and `created_at` is stamped by
the schema default.  Returns `lastrowid`. -/
def create (s : AlertState) (equipment_id alert_type severity message
    status : String) : ℕ × AlertState :=
  (s.nextId,
   { s with
     alerts := s.alerts ++
       [{ id := s.nextId, equipment_id := equipment_id,
          alert_type := alert_type, severity := severity, message := message,
          status := status, created_at := s.now }],
     nextId := s.nextId + 1 })

/-- The `CASE severity ... END` rank of the active-alerts query:
critical=1, high=2, medium=3, low=4, anything else 5. -/
def severityRank (s : String) : ℕ :=
  if s = "critical" then 1
  else if s = "high" then 2
  else if s = "medium" then 3
  else if s = "low" then 4
  else 5

/-- The sort order of `get_active_alerts`: ascending severity rank, ties
broken by descending `created_at`. -/
def activeOrder (a b : AlertRow) : Prop :=
  severityRank a.severity < severityRank b.severity ∨
    (severityRank a.severity = severityRank b.severity ∧
      b.created_at ≤ a.created_at)

instance : DecidableRel activeOrder := fun a b => by
  unfold activeOrder; exact inferInstance

instance : IsTotal AlertRow activeOrder :=
  ⟨fun a b => by unfold activeOrder; omega⟩

instance : IsTrans AlertRow activeOrder :=
  ⟨fun a b c hab hbc => by
    unfold activeOrder at hab hbc ⊢; omega⟩

/-- `AlertRepository.get_active_alerts`:
`SELECT * FROM alerts WHERE status = 'active' ORDER BY CASE severity ...
END, created_at DESC`.  The ORDER BY is modelled by a sort with respect
to `activeOrder` (the SQL result is specified only up to that order). -/
def get_active_alerts (s : AlertState) : List AlertRow :=
  (s.alerts.filter (fun a => a.status = "active")).insertionSort activeOrder

/-- `AlertRepository.acknowledge`: unconditional UPDATE of every row with
the given id (status, acknowledged_by, acknowledged_at), returning
`rows_affected > 0`.  No status precondition is checked here. -/
def acknowledge (s : AlertState) (alert_id : ℕ) (user : String) :
    Bool × AlertState :=
  let rows_affected := (s.alerts.filter (fun a => a.id = alert_id)).length
  (rows_affected > 0,
   { s with alerts := s.alerts.map (fun a =>
       if a.id = alert_id then
         { a with status := "acknowledged", acknowledged_by := some user,
                  acknowledged_at := some s.now }
       else a) })

/-- `AlertRepository.get_by_id`: `SELECT * FROM alerts WHERE id = ?`,
first result or `None`. -/
def get_by_id (s : AlertState) (alert_id : ℕ) : Option AlertRow :=
  (s.alerts.filter (fun a => a.id = alert_id)).head?

end AlertRepository

namespace AlertGenerator

open AlertRepository

/-- `AlertGenerator.VALID_ALERT_TYPES`. -/
def VALID_ALERT_TYPES : List String :=
  ["threshold_exceeded", "equipment_failure", "maintenance_due",
   "communication_error", "sensor_malfunction"]

/-- `AlertGenerator.VALID_SEVERITIES`. -/
def VALID_SEVERITIES : List String := ["low", "medium", "high", "critical"]

/-- The `Result` object of `services/alert_generator.py`. -/
structure Result where
  success : Bool
  data : Option AlertRow := Option.none
  error_message : Option String := Option.none
deriving DecidableEq, Repr

/-- `AlertGenerator.validate_alert_data`: equipment existence, alert-type
enum, severity enum, non-empty message, in that order; returns the
`ValidationError` message on failure. -/
def validate_alert_data (s : AlertState) (equipment_id alert_type severity
    message : String) : Except String Bool :=
  if equipment_id ∉ s.equipment then
    .error ("Equipment with ID \x27" ++ equipment_id ++ "\x27 not found")
  else if alert_type ∉ VALID_ALERT_TYPES then
    .error ("Invalid alert type \x27" ++ alert_type ++ "\x27. Valid types: " ++
      String.intercalate ", " VALID_ALERT_TYPES)
  else if severity ∉ VALID_SEVERITIES then
    .error ("Invalid severity \x27" ++ severity ++ "\x27. Valid severities: " ++
      String.intercalate ", " VALID_SEVERITIES)
  else if message = "" then
    .error "Alert message must be a non-empty string"
  else .ok true

/-- `AlertGenerator.generate_alert`: validate, then insert with
`status = 'active'` and return the new id. -/
def generate_alert (s : AlertState) (equipment_id alert_type severity
    message : String) : Except String (ℕ × AlertState) :=
  match validate_alert_data s equipment_id alert_type severity message with
  | .error e => .error e
  | .ok _ =>
    .ok (AlertRepository.create s equipment_id alert_type severity message
      "active")

/-- `AlertGenerator.get_active_alerts`: delegates to the repository. -/
def get_active_alerts (s : AlertState) : List AlertRow :=
  AlertRepository.get_active_alerts s

/-- The `not found` error message of `acknowledge_alert`. -/
def notFoundMsg (alert_id : ℕ) : String :=
  "Alert with ID " ++ toString alert_id ++ " not found"

/-- The `already acknowledged` error message of `acknowledge_alert`. -/
def alreadyAckMsg (alert_id : ℕ) : String :=
  "Alert " ++ toString alert_id ++ " is already acknowledged"

/-- `AlertGenerator.acknowledge_alert`: loads the alert (NotFound if
absent), rejects if its status is already `acknowledged`, otherwise
performs the repository update and returns the updated record. -/
def acknowledge_alert (s : AlertState) (alert_id : ℕ) (user : String) :
    Result × AlertState :=
  match AlertRepository.get_by_id s alert_id with
  | Option.none =>
    ({ success := false, error_message := some (notFoundMsg alert_id) }, s)
  | some alert =>
    if alert.status = "acknowledged" then
      ({ success := false, error_message := some (alreadyAckMsg alert_id) }, s)
    else
      let (ok, s2) := AlertRepository.acknowledge s alert_id user
      if ok then
        ({ success := true, data := AlertRepository.get_by_id s2 alert_id }, s2)
      else
        ({ success := false,
           error_message := some "Failed to acknowledge alert" }, s2)

/-- Acknowledging a list of (alert id, actor) pairs in sequence through
the service operation. -/
def ackAll (s : AlertState) (acks : List (ℕ × String)) : AlertState :=
  acks.foldl (fun st p => (acknowledge_alert st p.1 p.2).2) s

end AlertGenerator

/-! ## Auxiliary definitions used in theorem statements -/

namespace SensorProcessor

/-- Reading payload with the three required fields and defaulted optional
ones (timestamp absent, no unit). -/
def mkReading (equipment_id sensor_type : String) (value : PyVal) : Reading :=
  { equipment_id := equipment_id, sensor_type := sensor_type, value := value }

/-- The violation descriptor of a `check_thresholds` outcome, if the call
returned one (and `Option.none` when it returned no violation or raised). -/
def resultAlert (e : Except PyError (Option Alert)) : Option Alert :=
  match e with
  | .ok (some a) => some a
  | _ => Option.none

/-- Severity of a returned violation descriptor, if any. -/
def resultSeverity (e : Except PyError (Option Alert)) : Option String :=
  (resultAlert e).map Alert.severity

/-- Crossed bound of a returned violation descriptor, if any. -/
def resultThreshold (e : Except PyError (Option Alert)) : Option ℚ :=
  (resultAlert e).map Alert.threshold

/-- Stated from the spec for comparison with the code: a violation occurs
iff `value > max` or `value < min`, both strict, each bound only when
configured. -/
def specViolation (cfg : ThresholdConfig) (v : ℚ) : Bool :=
  (match cfg.max? with
   | some m => decide (m < v)
   | Option.none => false) ||
  (match cfg.min? with
   | some m => decide (v < m)
   | Option.none => false)

/-- Stated from the spec for comparison with the code: the fixed severity
breakpoints over percent deviation, with exclusive lower bounds. -/
def specSeverityOfPercent (p : ℚ) : String :=
  if p > 50 then "critical"
  else if p > 25 then "high"
  else if p > 10 then "medium"
  else "low"

end SensorProcessor

/-! ## Helper lemmas -/

section Helpers

open SensorProcessor

/-- Severity of a finite value against a nonzero maximum bound is the
spec breakpoint mapping of the percent deviation `(v - m) / m * 100`. -/
theorem determine_severity_finite_max (v m : ℚ) (hm : m ≠ 0) :
    determine_severity (.finite v) m "max" =
      .ok (specSeverityOfPercent ((v - m) / m * 100)) := by
  unfold determine_severity specSeverityOfPercent
  simp only [if_pos rfl, PyFloat.subQ, PyFloat.divQ, if_neg hm, PyFloat.mul100,
    PyFloat.gtQ, decide_eq_true_eq]
  split_ifs <;> first | rfl | simp_all

/-- Severity of a finite value against a nonzero minimum bound is the
spec breakpoint mapping of the percent deviation `(m - v) / m * 100`. -/
theorem determine_severity_finite_min (v m : ℚ) (hm : m ≠ 0) :
    determine_severity (.finite v) m "min" =
      .ok (specSeverityOfPercent ((m - v) / m * 100)) := by
  unfold determine_severity specSeverityOfPercent
  have hmm : ("min" : String) ≠ "max" := by decide
  simp only [if_neg hmm, PyFloat.qSub, PyFloat.divQ, if_neg hm, PyFloat.mul100,
    PyFloat.gtQ, decide_eq_true_eq]
  split_ifs <;> rfl

/-- With a nonzero bound, the severity computation never raises. -/
theorem determine_severity_isOk (v : PyFloat) (m : ℚ) (ty : String)
    (hm : m ≠ 0) : ∃ s, determine_severity v m ty = .ok s := by
  unfold determine_severity
  simp only [PyFloat.divQ, if_neg hm]
  split_ifs <;> exact ⟨_, rfl⟩

end Helpers

/-! ## Claim theorems -/

section Claims

open SensorProcessor AlertRepository AlertGenerator

/-- C4 counterexample: with threshold table `{temperature: {max: 80, min: -10}}`,
a temperature reading of value 100 crosses the max bound with percent
deviation 25.0, which the code classifies as severity "medium" (25 is not
greater than 25), not "high" as the claim states. -/
theorem c4_counterexample :
    resultSeverity
      (check_thresholds [("temperature", ⟨some 80, some (-10)⟩)]
        (mkReading "EQ-1" "temperature" (PyVal.num (.finite 100)))) = some "medium" ∧
    ("medium" : String) ≠ "high" := by
  constructor
  · have hl : ([("temperature", ⟨some 80, some (-10)⟩)] : ThresholdTable).lookup
        "temperature" = some ⟨some 80, some (-10)⟩ := rfl
    norm_num [check_thresholds, mkReading, pyFloatConv, hl, determine_severity,
      PyFloat.subQ, PyFloat.divQ, PyFloat.mul100, PyFloat.gtQ, minBranch,
      resultSeverity, resultAlert]
  · decide

/-- C4 (amended): with threshold table `{temperature: {max: 80, min: -10}}`,
value 100 yields a violation crossing the max bound 80 (direction above)
with percent deviation 25.0 and severity "medium" (not "high": 25 is not
greater than the exclusive breakpoint 25); value 85 yields percent
deviation 6.25 and severity "low"; value 80 (exactly the max bound) yields
no violation. -/
theorem c4_temperature_scenario :
    resultSeverity
      (check_thresholds [("temperature", ⟨some 80, some (-10)⟩)]
        (mkReading "EQ-1" "temperature" (PyVal.num (.finite 100)))) = some "medium" ∧
    resultThreshold
      (check_thresholds [("temperature", ⟨some 80, some (-10)⟩)]
        (mkReading "EQ-1" "temperature" (PyVal.num (.finite 100)))) = some 80 ∧
    ((100 - 80) / 80 * 100 : ℚ) = 25 ∧
    specSeverityOfPercent 25 = "medium" ∧
    resultSeverity
      (check_thresholds [("temperature", ⟨some 80, some (-10)⟩)]
        (mkReading "EQ-1" "temperature" (PyVal.num (.finite 85)))) = some "low" ∧
    ((85 - 80) / 80 * 100 : ℚ) = 25 / 4 ∧
    specSeverityOfPercent (25 / 4) = "low" ∧
    check_thresholds [("temperature", ⟨some 80, some (-10)⟩)]
      (mkReading "EQ-1" "temperature" (PyVal.num (.finite 80))) = .ok Option.none := by
  have hl : ([("temperature", ⟨some 80, some (-10)⟩)] : ThresholdTable).lookup
      "temperature" = some ⟨some 80, some (-10)⟩ := rfl
  refine ⟨?_, ?_, by norm_num, ?_, ?_, by norm_num, ?_, ?_⟩ <;>
    norm_num [check_thresholds, mkReading, pyFloatConv, hl, determine_severity,
      PyFloat.subQ, PyFloat.divQ, PyFloat.mul100, PyFloat.gtQ, PyFloat.ltQ, minBranch,
      resultSeverity, resultThreshold, resultAlert, specSeverityOfPercent]

end Claims

section ClaimsC2

open SensorProcessor

/-- C2: for every violation returned by the evaluator, the severity equals
the fixed breakpoint mapping (exclusive lower bounds 50/25/10) of the
percent deviation, computed as `(value - max) / max * 100` when the max
bound is crossed (direction above) and `(min - value) / min * 100` when the
min bound is crossed (direction below), the relevant bound being nonzero. -/
theorem c2_severity_breakpoints (t : ThresholdTable) (eqid st : String)
    (v : ℚ) (cfg : ThresholdConfig) (hl : t.lookup st = some cfg) :
    (∀ m, cfg.max? = some m → m < v → m ≠ 0 →
      resultSeverity (check_thresholds t (mkReading eqid st (.num (.finite v)))) =
        some (specSeverityOfPercent ((v - m) / m * 100))) ∧
    (∀ m, cfg.min? = some m → v < m → m ≠ 0 →
      (∀ M, cfg.max? = some M → ¬ M < v) →
      resultSeverity (check_thresholds t (mkReading eqid st (.num (.finite v)))) =
        some (specSeverityOfPercent ((m - v) / m * 100))) := by
  constructor
  · intro m hmax hlt hm
    simp only [check_thresholds, mkReading, pyFloatConv, hl, hmax, PyFloat.gtQ,
      decide_eq_true_eq, if_pos hlt, determine_severity_finite_max v m hm,
      resultSeverity, resultAlert, Option.map]
  · intro m hmin hlt hm hnomax
    cases hM : cfg.max? with
    | none =>
      simp only [check_thresholds, mkReading, pyFloatConv, hl, hM, minBranch, hmin,
        PyFloat.ltQ, decide_eq_true_eq, if_pos hlt,
        determine_severity_finite_min v m hm, resultSeverity, resultAlert,
        Option.map]
    | some M =>
      simp only [check_thresholds, mkReading, pyFloatConv, hl, hM, PyFloat.gtQ,
        decide_eq_true_eq, if_neg (hnomax M hM), minBranch, hmin,
        PyFloat.ltQ, if_pos hlt, determine_severity_finite_min v m hm,
        resultSeverity, resultAlert, Option.map]

/-- C2 witness: concrete instantiations of `c2_severity_breakpoints` for a
max crossing (temperature 120 over bound 80: 50% deviation, severity
"high") and a min crossing (temperature -20 under bound -10: 100%
deviation, severity "critical"). -/
theorem c2_severity_breakpoints_witness :
    resultSeverity (check_thresholds [("temperature", ⟨some 80, some (-10)⟩)]
        (mkReading "EQ-1" "temperature" (.num (.finite 120)))) =
      some (specSeverityOfPercent ((120 - 80) / 80 * 100)) ∧
    resultSeverity (check_thresholds [("temperature", ⟨some 80, some (-10)⟩)]
        (mkReading "EQ-1" "temperature" (.num (.finite (-20))))) =
      some (specSeverityOfPercent (((-10) - (-20)) / (-10) * 100)) := by
  constructor
  · exact (c2_severity_breakpoints [("temperature", ⟨some 80, some (-10)⟩)]
      "EQ-1" "temperature" 120 ⟨some 80, some (-10)⟩ rfl).1 80 rfl
      (by norm_num) (by norm_num)
  · exact (c2_severity_breakpoints [("temperature", ⟨some 80, some (-10)⟩)]
      "EQ-1" "temperature" (-20) ⟨some 80, some (-10)⟩ rfl).2 (-10) rfl
      (by norm_num) (by norm_num)
      (by intro M hM; cases hM; norm_num)

end ClaimsC2

section ClaimsC1C3

open SensorProcessor

/-- C1 counterexample: under the default threshold table, pressure is a
configured sensor type whose min bound is 0; the numeric value -1 satisfies
`value < min`, yet `check_thresholds` does not return a violation — it
raises `ZeroDivisionError` while computing the percent deviation. -/
theorem c1_counterexample :
    resultAlert (check_thresholds DEFAULT_THRESHOLDS
      (mkReading "EQ-1" "pressure" (PyVal.num (.finite (-1))))) = Option.none ∧
    check_thresholds DEFAULT_THRESHOLDS
      (mkReading "EQ-1" "pressure" (PyVal.num (.finite (-1)))) =
      .error .zeroDivisionError ∧
    (DEFAULT_THRESHOLDS : ThresholdTable).lookup "pressure" =
      some ⟨some 150, some 0⟩ ∧
    ((-1 : ℚ) < 0) := by
  have hl : (DEFAULT_THRESHOLDS : ThresholdTable).lookup "pressure" =
      some ⟨some 150, some 0⟩ := rfl
  have hc : check_thresholds DEFAULT_THRESHOLDS
      (mkReading "EQ-1" "pressure" (PyVal.num (.finite (-1)))) =
      .error .zeroDivisionError := by
    norm_num [check_thresholds, mkReading, pyFloatConv, hl, determine_severity,
      PyFloat.qSub, PyFloat.divQ, PyFloat.mul100, PyFloat.gtQ, PyFloat.ltQ, minBranch]
  exact ⟨by rw [hc]; rfl, hc, hl, by norm_num⟩

/-- C1 (amended): for every threshold table, configured sensor type and
finite numeric value such that every bound the value strictly crosses is
nonzero, `check_thresholds` returns a violation iff `value > max` or
`value < min` (strict inequalities, so values equal to a bound never
violate); a sensor type absent from the table yields no violation rather
than an error; a crossed max bound is reported with that bound and the
`exceeds maximum threshold` message (direction above), and a crossed min
bound (max not crossed) with that bound and the `below minimum threshold`
message (direction below).  When the crossed bound is zero the call
instead raises `ZeroDivisionError` (see the counterexample). -/
theorem c1_threshold_evaluation (t : ThresholdTable) (eqid st : String)
    (v : ℚ) :
    (t.lookup st = Option.none →
      check_thresholds t (mkReading eqid st (.num (.finite v))) =
        .ok Option.none) ∧
    (∀ cfg, t.lookup st = some cfg →
      (∀ m, cfg.max? = some m → m < v → m ≠ 0) →
      (∀ m, cfg.min? = some m → v < m → m ≠ 0) →
      ((resultAlert (check_thresholds t
          (mkReading eqid st (.num (.finite v))))).isSome = specViolation cfg v ∧
       (∀ m, cfg.max? = some m → m < v →
         ∃ a, check_thresholds t (mkReading eqid st (.num (.finite v))) =
            .ok (some a) ∧ a.threshold = m ∧
            a.message = aboveMessage st (.finite v) m) ∧
       (∀ m, cfg.min? = some m → v < m → (∀ M, cfg.max? = some M → ¬ M < v) →
         ∃ a, check_thresholds t (mkReading eqid st (.num (.finite v))) =
            .ok (some a) ∧ a.threshold = m ∧
            a.message = belowMessage st (.finite v) m))) := by
  constructor
  · intro hnone
    simp only [check_thresholds, mkReading, pyFloatConv, hnone]
  · intro cfg hl hmaxnz hminnz
    refine ⟨?_, ?_, ?_⟩
    · -- violation iff a strict bound crossing
      cases hM : cfg.max? with
      | none =>
        cases hm : cfg.min? with
        | none =>
          simp only [check_thresholds, mkReading, pyFloatConv, hl, hM, minBranch,
            hm, specViolation, resultAlert, Option.isSome]
          simp
        | some m =>
          by_cases hlt : v < m
          · obtain ⟨sev, hsev⟩ :=
              determine_severity_isOk (.finite v) m "min" (hminnz m hm hlt)
            simp only [check_thresholds, mkReading, pyFloatConv, hl, hM, minBranch,
              hm, PyFloat.ltQ, decide_eq_true_eq, if_pos hlt, hsev,
              specViolation, resultAlert, Option.isSome]
            simp [hlt]
          · simp only [check_thresholds, mkReading, pyFloatConv, hl, hM, minBranch,
              hm, PyFloat.ltQ, decide_eq_true_eq, if_neg hlt,
              specViolation, resultAlert, Option.isSome]
            simp [hlt]
      | some M =>
        by_cases hgt : M < v
        · obtain ⟨sev, hsev⟩ :=
            determine_severity_isOk (.finite v) M "max" (hmaxnz M hM hgt)
          simp only [check_thresholds, mkReading, pyFloatConv, hl, hM,
            PyFloat.gtQ, decide_eq_true_eq, if_pos hgt, hsev,
            specViolation, resultAlert, Option.isSome]
          simp [hgt]
        · cases hm : cfg.min? with
          | none =>
            simp only [check_thresholds, mkReading, pyFloatConv, hl, hM, minBranch,
              hm, PyFloat.gtQ, decide_eq_true_eq, if_neg hgt,
              specViolation, resultAlert, Option.isSome]
            simp [hgt]
          | some m =>
            by_cases hlt : v < m
            · obtain ⟨sev, hsev⟩ :=
                determine_severity_isOk (.finite v) m "min" (hminnz m hm hlt)
              simp only [check_thresholds, mkReading, pyFloatConv, hl, hM, minBranch,
                hm, PyFloat.gtQ, PyFloat.ltQ, decide_eq_true_eq, if_neg hgt,
                if_pos hlt, hsev, specViolation, resultAlert, Option.isSome]
              simp [hgt, hlt]
            · simp only [check_thresholds, mkReading, pyFloatConv, hl, hM, minBranch,
                hm, PyFloat.gtQ, PyFloat.ltQ, decide_eq_true_eq, if_neg hgt,
                if_neg hlt, specViolation, resultAlert, Option.isSome]
              simp [hgt, hlt]
    · -- direction above
      intro m hmax hlt
      obtain ⟨sev, hsev⟩ :=
        determine_severity_isOk (.finite v) m "max" (hmaxnz m hmax hlt)
      have hceq : check_thresholds t (mkReading eqid st (.num (.finite v))) =
          .ok (some { equipment_id := eqid, sensor_type := st,
                      value := .finite v, threshold := m,
                      alert_type := "threshold_exceeded", severity := sev,
                      message := aboveMessage st (.finite v) m }) := by
        simp only [check_thresholds, mkReading, pyFloatConv, hl, hmax,
          PyFloat.gtQ, decide_eq_true_eq, if_pos hlt, hsev]
      exact ⟨_, hceq, rfl, rfl⟩
    · -- direction below
      intro m hmin hlt hnomax
      obtain ⟨sev, hsev⟩ :=
        determine_severity_isOk (.finite v) m "min" (hminnz m hmin hlt)
      have hbr : minBranch cfg (mkReading eqid st (.num (.finite v))) (.finite v) =
          .ok (some { equipment_id := eqid, sensor_type := st,
                      value := .finite v, threshold := m,
                      alert_type := "threshold_exceeded", severity := sev,
                      message := belowMessage st (.finite v) m }) := by
        simp only [minBranch, hmin, PyFloat.ltQ, decide_eq_true_eq, if_pos hlt,
          hsev, mkReading]
      have hceq : check_thresholds t (mkReading eqid st (.num (.finite v))) =
          .ok (some { equipment_id := eqid, sensor_type := st,
                      value := .finite v, threshold := m,
                      alert_type := "threshold_exceeded", severity := sev,
                      message := belowMessage st (.finite v) m }) := by
        cases hM : cfg.max? with
        | none =>
          simp only [check_thresholds, mkReading, pyFloatConv, hl, hM]
          simpa only [mkReading] using hbr
        | some M =>
          simp only [check_thresholds, mkReading, pyFloatConv, hl, hM,
            PyFloat.gtQ, decide_eq_true_eq, if_neg (hnomax M hM)]
          simpa only [mkReading] using hbr
      exact ⟨_, hceq, rfl, rfl⟩

end ClaimsC1C3

section ClaimsC1C3b

open SensorProcessor

/-- C1 witness: instantiation of `c1_threshold_evaluation` at the table
`{temperature: {max: 80, min: -10}}` and value 100 (crossing the nonzero
max bound). -/
theorem c1_threshold_evaluation_witness :
    (resultAlert (check_thresholds [("temperature", ⟨some 80, some (-10)⟩)]
      (mkReading "EQ-1" "temperature" (.num (.finite 100))))).isSome =
      specViolation ⟨some 80, some (-10)⟩ 100 := by
  exact ((c1_threshold_evaluation [("temperature", ⟨some 80, some (-10)⟩)]
    "EQ-1" "temperature" 100).2 ⟨some 80, some (-10)⟩ rfl
    (by intro m hm hv; cases hm; norm_num)
    (by intro m hm hv; cases hm; norm_num at hv)).1

/-- When no minimum bound fires against a nonzero bound, the minimum
branch of the threshold check never raises. -/
theorem minBranch_isOk (cfg : ThresholdConfig) (r : Reading) (value : PyFloat)
    (h : ∀ m, cfg.min? = some m → value.ltQ m = true → m ≠ 0) :
    ∃ res, minBranch cfg r value = .ok res := by
  cases hm : cfg.min? with
  | none => exact ⟨_, by simp only [minBranch, hm]; rfl⟩
  | some m =>
    by_cases hlt : value.ltQ m = true
    · obtain ⟨sev, hsev⟩ := determine_severity_isOk value m "min" (h m hm hlt)
      exact ⟨_, by simp only [minBranch, hm, if_pos hlt, hsev]; rfl⟩
    · exact ⟨_, by simp only [minBranch, hm, if_neg hlt]; rfl⟩

/-- C3 counterexample: flow_rate is whitelisted and has default min bound
exactly 0; the numeric value -3 crosses it and `check_thresholds` raises
`ZeroDivisionError` instead of returning a result. -/
theorem c3_counterexample :
    check_thresholds DEFAULT_THRESHOLDS
      (mkReading "EQ-2" "flow_rate" (PyVal.num (.finite (-3)))) =
      .error .zeroDivisionError ∧
    "flow_rate" ∈ VALID_SENSOR_TYPES := by
  constructor
  · have hl : (DEFAULT_THRESHOLDS : ThresholdTable).lookup "flow_rate" =
        some ⟨some 1000, some 0⟩ := rfl
    norm_num [check_thresholds, mkReading, pyFloatConv, hl, determine_severity,
      PyFloat.qSub, PyFloat.divQ, PyFloat.mul100, PyFloat.gtQ, PyFloat.ltQ,
      minBranch]
  · decide

/-- C3 (amended): for every reading with whitelisted sensor type whose
value converts to a float, `check_thresholds` (with its severity
subroutine) returns a result without raising, provided every bound that
the value strictly crosses is nonzero.  Under the default table this
proviso fails for the seven sensor types with min bound exactly 0.0: a
value below such a min raises `ZeroDivisionError` (see the
counterexample). -/
theorem c3_totality (t : ThresholdTable) (r : Reading) (v : PyFloat)
    (hconv : pyFloatConv r.value = .ok v)
    (hwl : r.sensor_type ∈ VALID_SENSOR_TYPES)
    (hmaxnz : ∀ cfg m, t.lookup r.sensor_type = some cfg →
      cfg.max? = some m → v.gtQ m = true → m ≠ 0)
    (hminnz : ∀ cfg m, t.lookup r.sensor_type = some cfg →
      cfg.min? = some m → v.ltQ m = true → m ≠ 0) :
    ∃ res, check_thresholds t r = .ok res := by
  cases hl : t.lookup r.sensor_type with
  | none => exact ⟨_, by simp only [check_thresholds, hconv, hl]; rfl⟩
  | some cfg =>
    cases hM : cfg.max? with
    | none =>
      obtain ⟨res, hres⟩ := minBranch_isOk cfg r v (fun m hm hlt =>
        hminnz cfg m hl hm hlt)
      exact ⟨res, by simp only [check_thresholds, hconv, hl, hM, hres]⟩
    | some m =>
      by_cases hg : v.gtQ m = true
      · obtain ⟨sev, hsev⟩ :=
          determine_severity_isOk v m "max" (hmaxnz cfg m hl hM hg)
        exact ⟨_, by simp only [check_thresholds, hconv, hl, hM, if_pos hg, hsev]; rfl⟩
      · obtain ⟨res, hres⟩ := minBranch_isOk cfg r v (fun m hm hlt =>
          hminnz cfg m hl hm hlt)
        exact ⟨res, by simp only [check_thresholds, hconv, hl, hM, if_neg hg, hres]⟩

/-- C3 witness: instantiation of `c3_totality` at the default table with a
temperature reading of 95 (crossing the nonzero max bound 80). -/
theorem c3_totality_witness :
    ∃ res, check_thresholds DEFAULT_THRESHOLDS
      (mkReading "EQ-1" "temperature" (.num (.finite 95))) = .ok res := by
  refine c3_totality DEFAULT_THRESHOLDS
    (mkReading "EQ-1" "temperature" (.num (.finite 95))) (.finite 95) rfl
    (by decide) ?_ ?_
  · intro cfg m hcfg hm hg
    have : cfg = ⟨some 80, some (-10)⟩ := by
      have hl : (DEFAULT_THRESHOLDS : ThresholdTable).lookup "temperature" =
          some ⟨some 80, some (-10)⟩ := rfl
      rw [show (mkReading "EQ-1" "temperature"
        (PyVal.num (.finite 95))).sensor_type = "temperature" from rfl] at hcfg
      rw [hl] at hcfg
      exact (Option.some_inj.mp hcfg).symm
    subst this
    cases hm
    norm_num
  · intro cfg m hcfg hm hg
    have : cfg = ⟨some 80, some (-10)⟩ := by
      have hl : (DEFAULT_THRESHOLDS : ThresholdTable).lookup "temperature" =
          some ⟨some 80, some (-10)⟩ := rfl
      rw [show (mkReading "EQ-1" "temperature"
        (PyVal.num (.finite 95))).sensor_type = "temperature" from rfl] at hcfg
      rw [hl] at hcfg
      exact (Option.some_inj.mp hcfg).symm
    subst this
    cases hm
    norm_num

end ClaimsC1C3b

section ClaimsC8

open SensorProcessor

/-- C8 counterexample: `float(nan)` succeeds, so a reading whose value is
the non-finite float `nan` passes validation (for an existing equipment
and whitelisted sensor type) and is persisted by `record_reading` —
convertible-but-non-finite values are not rejected at the ingestion
boundary. -/
theorem c8_counterexample :
    validate_reading ["EQ-1"]
      (mkReading "EQ-1" "temperature" (PyVal.num .nan)) = .ok true ∧
    PyFloat.isFinite .nan = false ∧
    (record_reading DEFAULT_THRESHOLDS ⟨[], 1, ["EQ-1"], 42⟩
      (mkReading "EQ-1" "temperature" (PyVal.num .nan))).1.success = true ∧
    (record_reading DEFAULT_THRESHOLDS ⟨[], 1, ["EQ-1"], 42⟩
      (mkReading "EQ-1" "temperature" (PyVal.num .nan))).2.readings =
      [⟨1, { equipment_id := "EQ-1", sensor_type := "temperature",
             value := PyVal.num .nan, unit := Option.none,
             timestamp := some 42 }⟩] := by
  refine ⟨rfl, rfl, ?_, ?_⟩ <;>
    simp [record_reading, validate_reading, mkReading, pyFloatConv,
      defaultTimestamp, check_thresholds, minBranch, PyFloat.gtQ, PyFloat.ltQ,
      DEFAULT_THRESHOLDS, VALID_SENSOR_TYPES, List.mem_cons]

/-- C8 (amended): for a reading whose equipment exists, whose sensor type
is whitelisted and whose value field is present, validation fails with
"Sensor value must be numeric" exactly when `float(value)` raises
(ValueError/TypeError); convertibility is the only check, so non-finite
convertible values pass (see the counterexample).  Whenever validation
fails, `record_reading` reports the failure and persists nothing. -/
theorem c8_value_validation (equip : List String) (r : Reading)
    (heq : r.equipment_id ∈ equip) (hwl : r.sensor_type ∈ VALID_SENSOR_TYPES)
    (hnn : r.value ≠ PyVal.none) :
    (validate_reading equip r = .error "Sensor value must be numeric" ↔
      ∃ e, pyFloatConv r.value = .error e) ∧
    (∀ (t : ThresholdTable) (s : SensorState) (r2 : Reading) (em : String),
      validate_reading s.equipment r2 = .error em →
      record_reading t s r2 =
        ({ success := false, data := Option.none, error_message := some em }, s)) := by
  constructor
  · unfold validate_reading
    rw [if_neg hnn, if_neg (by simpa using heq), if_neg (by simpa using hwl)]
    cases hc : pyFloatConv r.value with
    | ok f => simp
    | error e => simp
  · intro t s r2 em hval
    unfold record_reading
    rw [hval]

end ClaimsC8

section ClaimsC8W

open SensorProcessor

/-- C8 witness: instantiation of `c8_value_validation` at a reading whose
value is the non-numeric text "abc": validation fails with the numeric
error, and `record_reading` on a matching state reports it and stores
nothing. -/
theorem c8_value_validation_witness :
    (validate_reading ["EQ-1"]
        (mkReading "EQ-1" "temperature" (PyVal.str "abc")) =
          .error "Sensor value must be numeric" ↔
      ∃ e, pyFloatConv (PyVal.str "abc") = .error e) ∧
    (∀ (t : ThresholdTable) (s : SensorState) (r2 : Reading) (em : String),
      validate_reading s.equipment r2 = .error em →
      record_reading t s r2 =
        ({ success := false, data := Option.none, error_message := some em }, s)) := by
  have h := c8_value_validation ["EQ-1"]
    (mkReading "EQ-1" "temperature" (PyVal.str "abc"))
    (by decide) (by decide) (by decide)
  exact h

end ClaimsC8W

section ClaimsC10

open SensorProcessor

/-- Defaulting the timestamp changes neither the value nor the sensor
type nor the equipment id of a reading. -/
theorem defaultTimestamp_fields (now : ℕ) (r : Reading) :
    (defaultTimestamp now r).value = r.value ∧
    (defaultTimestamp now r).sensor_type = r.sensor_type ∧
    (defaultTimestamp now r).equipment_id = r.equipment_id := by
  unfold defaultTimestamp
  split_ifs <;> exact ⟨rfl, rfl, rfl⟩

/-- Validation succeeds on an existing equipment, whitelisted sensor type
and convertible value. -/
theorem validate_reading_ok (equip : List String) (r : Reading) (f : PyFloat)
    (heq : r.equipment_id ∈ equip) (hwl : r.sensor_type ∈ VALID_SENSOR_TYPES)
    (hconv : pyFloatConv r.value = .ok f) :
    validate_reading equip r = .ok true := by
  have hnn : r.value ≠ PyVal.none := by
    intro h; rw [h] at hconv; exact Except.noConfusion hconv
  unfold validate_reading
  rw [if_neg hnn, if_neg (by simpa using heq), if_neg (by simpa using hwl), hconv]

/-- C10: ingestion is not atomic.  For a validated reading whose finite
value lies below a configured min bound of exactly 0 (the max bound, if
any, not being crossed), `record_reading` first persists the reading and
then fails inside threshold evaluation with `ZeroDivisionError`: the
result is a failure whose message is "Failed to record reading: float
division by zero" and whose data (hence reading_id) is absent, while the
store now durably contains the reading.  Conversely, when validation
fails, nothing at all is persisted. -/
theorem c10_persist_then_fail (t : ThresholdTable) (s : SensorState)
    (r : Reading) (v : ℚ) (cfg : ThresholdConfig)
    (hv : r.value = PyVal.num (.finite v))
    (heq : r.equipment_id ∈ s.equipment)
    (hwl : r.sensor_type ∈ VALID_SENSOR_TYPES)
    (hl : t.lookup r.sensor_type = some cfg)
    (hnomax : ∀ M, cfg.max? = some M → ¬ M < v)
    (hmin : cfg.min? = some 0) (hneg : v < 0) :
    record_reading t s r =
      ({ success := false, data := Option.none,
         error_message := some "Failed to record reading: float division by zero" },
       { s with readings := s.readings ++ [⟨s.nextReadingId, defaultTimestamp s.now r⟩],
                nextReadingId := s.nextReadingId + 1 }) ∧
    (∀ (r2 : Reading) (em : String),
      validate_reading s.equipment r2 = .error em →
      record_reading t s r2 =
        ({ success := false, data := Option.none, error_message := some em }, s)) := by
  constructor
  · have hconv : pyFloatConv r.value = .ok (.finite v) := by rw [hv]; rfl
    have hval := validate_reading_ok s.equipment r (.finite v) heq hwl hconv
    obtain ⟨hdv, hdst, hdeq⟩ := defaultTimestamp_fields s.now r
    have hconv2 : pyFloatConv (defaultTimestamp s.now r).value = .ok (.finite v) := by
      rw [hdv, hv]; rfl
    have hcheck : check_thresholds t (defaultTimestamp s.now r) =
        .error .zeroDivisionError := by
      have hl2 : t.lookup (defaultTimestamp s.now r).sensor_type = some cfg := by
        rw [hdst]; exact hl
      have hbr : minBranch cfg (defaultTimestamp s.now r) (.finite v) =
          .error .zeroDivisionError := by
        have hlt : PyFloat.ltQ (.finite v) 0 = true := by
          simp [PyFloat.ltQ, hneg]
        simp only [minBranch, hmin, hlt, if_pos rfl, determine_severity,
          PyFloat.qSub, PyFloat.divQ, if_pos rfl]
        simp
      cases hM : cfg.max? with
      | none =>
        simp only [check_thresholds, hconv2, hl2, hM, hbr]
      | some M =>
        have hng : PyFloat.gtQ (.finite v) M = false := by
          simp [PyFloat.gtQ]
          exact le_of_not_lt (hnomax M hM)
        simp only [check_thresholds, hconv2, hl2, hM, hng, Bool.false_eq_true,
          if_false, hbr]
    unfold record_reading
    simp only [hval, hcheck, PyError.msg]
    rfl
  · intro r2 em hval2
    unfold record_reading
    rw [hval2]

/-- C10 witness: instantiation of `c10_persist_then_fail` at the default
table with a pressure reading of -5: the failure result is returned while
the reading is nevertheless stored. -/
theorem c10_persist_then_fail_witness :
    record_reading DEFAULT_THRESHOLDS ⟨[], 1, ["EQ-1"], 42⟩
      (mkReading "EQ-1" "pressure" (PyVal.num (.finite (-5)))) =
      ({ success := false, data := Option.none,
         error_message := some "Failed to record reading: float division by zero" },
       { readings := [⟨1, defaultTimestamp 42
           (mkReading "EQ-1" "pressure" (PyVal.num (.finite (-5))))⟩],
         nextReadingId := 2, equipment := ["EQ-1"], now := 42 }) := by
  have h := (c10_persist_then_fail DEFAULT_THRESHOLDS ⟨[], 1, ["EQ-1"], 42⟩
    (mkReading "EQ-1" "pressure" (PyVal.num (.finite (-5)))) (-5)
    ⟨some 150, some 0⟩ rfl (by decide) (by decide) rfl
    (by intro M hM; cases hM; norm_num) rfl (by norm_num)).1
  exact h

end ClaimsC10

section AlertHelpers

open AlertRepository AlertGenerator

/-- In a store with distinct row ids, filtering on the id of a stored row
returns exactly that row. -/
theorem filter_id_singleton {l : List AlertRow} {a : AlertRow}
    (hnd : (l.map AlertRow.id).Nodup) (ha : a ∈ l) :
    l.filter (fun x => x.id = a.id) = [a] := by
  induction l with
  | nil => cases ha
  | cons b l ih =>
    rw [List.map_cons, List.nodup_cons] at hnd
    rcases List.mem_cons.mp ha with rfl | hmem
    · rw [List.filter_cons_of_pos (by simp)]
      have hnil : l.filter (fun x => x.id = a.id) = [] := by
        rw [List.filter_eq_nil_iff]
        intro x hx
        simp only [decide_eq_true_eq]
        intro hxe
        exact hnd.1 (hxe ▸ List.mem_map_of_mem AlertRow.id hx)
      rw [hnil]
    · have hne : ¬ (b.id = a.id) := by
        intro hbe
        exact hnd.1 (hbe ▸ List.mem_map_of_mem AlertRow.id hmem)
      rw [List.filter_cons_of_neg (by simpa using hne)]
      exact ih hnd.2 hmem

/-- `get_by_id` returns a stored row looked up by its own id. -/
theorem get_by_id_of_mem (s : AlertState) (a : AlertRow)
    (hnd : (s.alerts.map AlertRow.id).Nodup) (ha : a ∈ s.alerts) :
    AlertRepository.get_by_id s a.id = some a := by
  unfold AlertRepository.get_by_id
  rw [filter_id_singleton hnd ha]
  rfl

/-- Filtering on an id commutes with the per-id update map of the
acknowledge UPDATE, for any id-preserving update. -/
theorem filter_id_map_update (l : List AlertRow) (i : ℕ)
    (f : AlertRow → AlertRow) (hf : ∀ x, (f x).id = x.id) :
    (l.map (fun x => if x.id = i then f x else x)).filter (fun x => x.id = i) =
      (l.filter (fun x => x.id = i)).map f := by
  induction l with
  | nil => rfl
  | cons b l ih =>
    by_cases hb : b.id = i
    · rw [List.map_cons, if_pos hb, List.filter_cons_of_pos (by simp [hf, hb]),
        List.filter_cons_of_pos (by simpa using hb), List.map_cons, ih]
    · rw [List.map_cons, if_neg hb, List.filter_cons_of_neg (by simpa using hb),
        List.filter_cons_of_neg (by simpa using hb), ih]

/-- The per-id update map of the acknowledge UPDATE preserves the list of
row ids (for any id-preserving update). -/
theorem map_update_ids (l : List AlertRow) (i : ℕ)
    (f : AlertRow → AlertRow) (hf : ∀ x, (f x).id = x.id) :
    (l.map (fun x => if x.id = i then f x else x)).map AlertRow.id =
      l.map AlertRow.id := by
  induction l with
  | nil => rfl
  | cons b l ih =>
    simp only [List.map_cons, ih]
    by_cases hb : b.id = i
    · rw [if_pos hb, hf b]
    · rw [if_neg hb]

/-- `AlertRepository.acknowledge` on the id of a stored row (ids distinct)
reports success and rewrites exactly the matching row. -/
theorem acknowledge_of_mem (s : AlertState) (a : AlertRow) (u : String)
    (hnd : (s.alerts.map AlertRow.id).Nodup) (ha : a ∈ s.alerts) :
    AlertRepository.acknowledge s a.id u =
      (true,
       { s with alerts := s.alerts.map (fun x =>
           if x.id = a.id then
             { x with status := "acknowledged", acknowledged_by := some u,
                      acknowledged_at := some s.now }
           else x) }) := by
  unfold AlertRepository.acknowledge
  rw [filter_id_singleton hnd ha]
  rfl

end AlertHelpers

section ClaimsC5

open AlertRepository AlertGenerator

/-- The two service error messages for a given alert id are distinct
strings (their lengths differ). -/
theorem alreadyAckMsg_ne_notFoundMsg (i : ℕ) :
    alreadyAckMsg i ≠ notFoundMsg i := by
  intro h
  have hlen := congrArg String.length h
  simp only [alreadyAckMsg, notFoundMsg, String.length_append] at hlen
  have h1 : ("Alert " : String).length = 6 := rfl
  have h2 : (" is already acknowledged" : String).length = 24 := rfl
  have h3 : ("Alert with ID " : String).length = 14 := rfl
  have h4 : (" not found" : String).length = 10 := rfl
  rw [h1, h2, h3, h4] at hlen
  omega

/-- C5: acknowledgment is single-use.  On a store with distinct ids
holding an active alert, the first `acknowledge_alert` succeeds and stamps
status/acknowledged_by/acknowledged_at; a second call on the same id, by
any actor, fails with the AlreadyAcknowledged message (distinct from the
NotFound message), leaves the store unchanged, and the record still names
the first actor. -/
theorem c5_acknowledge_single_use (s : AlertState) (i : ℕ) (a : AlertRow)
    (u1 u2 : String) (hnd : (s.alerts.map AlertRow.id).Nodup)
    (ha : a ∈ s.alerts) (hi : a.id = i) (hactive : a.status = "active") :
    (acknowledge_alert s i u1).1.success = true ∧
    AlertRepository.get_by_id (acknowledge_alert s i u1).2 i =
      some { a with status := "acknowledged", acknowledged_by := some u1, acknowledged_at := some s.now } ∧
    (acknowledge_alert (acknowledge_alert s i u1).2 i u2).1.success = false ∧
    (acknowledge_alert (acknowledge_alert s i u1).2 i u2).1.error_message =
      some (alreadyAckMsg i) ∧
    alreadyAckMsg i ≠ notFoundMsg i ∧
    (acknowledge_alert (acknowledge_alert s i u1).2 i u2).2 =
      (acknowledge_alert s i u1).2 ∧
    (AlertRepository.get_by_id
      (acknowledge_alert (acknowledge_alert s i u1).2 i u2).2 i).map
        AlertRow.acknowledged_by = some (some u1) := by
  subst hi
  have hst : ¬ (a.status = "acknowledged") := by rw [hactive]; decide
  have hupd := acknowledge_of_mem s a u1 hnd ha
  have hack0 : (acknowledge_alert s a.id u1).2 =
      (AlertRepository.acknowledge s a.id u1).2 := by
    simp only [acknowledge_alert, get_by_id_of_mem s a hnd ha, if_neg hst, hupd]
    simp
  have hs2 : (acknowledge_alert s a.id u1).2 =
      { s with alerts := s.alerts.map (fun x =>
          if x.id = a.id then { x with status := "acknowledged", acknowledged_by := some u1, acknowledged_at := some s.now } else x) } := by
    rw [hack0, hupd]
  have hg2 : AlertRepository.get_by_id (acknowledge_alert s a.id u1).2 a.id =
      some { a with status := "acknowledged", acknowledged_by := some u1, acknowledged_at := some s.now } := by
    rw [hs2]
    unfold AlertRepository.get_by_id
    rw [filter_id_map_update s.alerts a.id
      (fun x => { x with status := "acknowledged", acknowledged_by := some u1, acknowledged_at := some s.now })
      (fun x => rfl)]
    rw [filter_id_singleton hnd ha]
    simp
  have comp1 : (acknowledge_alert s a.id u1).1.success = true := by
    simp only [acknowledge_alert, get_by_id_of_mem s a hnd ha, if_neg hst, hupd]
    simp
  have hack2 : acknowledge_alert (acknowledge_alert s a.id u1).2 a.id u2 =
      ({ success := false, data := Option.none, error_message := some (alreadyAckMsg a.id) },
       (acknowledge_alert s a.id u1).2) := by
    conv_lhs => rw [acknowledge_alert.eq_def]
    rw [hg2]
    simp
  refine ⟨comp1, hg2, by rw [hack2], by rw [hack2],
    alreadyAckMsg_ne_notFoundMsg a.id, by rw [hack2], ?_⟩
  rw [hack2]
  simp only [hg2, Option.map]

end ClaimsC5

section ClaimsC5W

open AlertRepository AlertGenerator

/-- C5 witness: instantiation of `c5_acknowledge_single_use` on a
one-alert store, first acknowledged by "alice", then re-attempted by
"bob". -/
theorem c5_acknowledge_single_use_witness :
    (acknowledge_alert ⟨[⟨1, "EQ-1", "threshold_exceeded", "high", "msg", "active", Option.none, Option.none, 10⟩], 2, ["EQ-1"], 42⟩ 1 "alice").1.success = true ∧
    AlertRepository.get_by_id (acknowledge_alert ⟨[⟨1, "EQ-1", "threshold_exceeded", "high", "msg", "active", Option.none, Option.none, 10⟩], 2, ["EQ-1"], 42⟩ 1 "alice").2 1 =
      some ⟨1, "EQ-1", "threshold_exceeded", "high", "msg", "acknowledged", some "alice", some 42, 10⟩ ∧
    (acknowledge_alert (acknowledge_alert ⟨[⟨1, "EQ-1", "threshold_exceeded", "high", "msg", "active", Option.none, Option.none, 10⟩], 2, ["EQ-1"], 42⟩ 1 "alice").2 1 "bob").1.success = false ∧
    (acknowledge_alert (acknowledge_alert ⟨[⟨1, "EQ-1", "threshold_exceeded", "high", "msg", "active", Option.none, Option.none, 10⟩], 2, ["EQ-1"], 42⟩ 1 "alice").2 1 "bob").1.error_message =
      some (alreadyAckMsg 1) ∧
    alreadyAckMsg 1 ≠ notFoundMsg 1 ∧
    (acknowledge_alert (acknowledge_alert ⟨[⟨1, "EQ-1", "threshold_exceeded", "high", "msg", "active", Option.none, Option.none, 10⟩], 2, ["EQ-1"], 42⟩ 1 "alice").2 1 "bob").2 =
      (acknowledge_alert ⟨[⟨1, "EQ-1", "threshold_exceeded", "high", "msg", "active", Option.none, Option.none, 10⟩], 2, ["EQ-1"], 42⟩ 1 "alice").2 ∧
    (AlertRepository.get_by_id (acknowledge_alert (acknowledge_alert ⟨[⟨1, "EQ-1", "threshold_exceeded", "high", "msg", "active", Option.none, Option.none, 10⟩], 2, ["EQ-1"], 42⟩ 1 "alice").2 1 "bob").2 1).map AlertRow.acknowledged_by =
      some (some "alice") := by
  exact c5_acknowledge_single_use
    ⟨[⟨1, "EQ-1", "threshold_exceeded", "high", "msg", "active", Option.none, Option.none, 10⟩], 2, ["EQ-1"], 42⟩
    1 ⟨1, "EQ-1", "threshold_exceeded", "high", "msg", "active", Option.none, Option.none, 10⟩
    "alice" "bob" (by simp) (by simp) rfl rfl

end ClaimsC5W

section ClaimsC9

open AlertRepository AlertGenerator

/-- C9: the store-level acknowledge is unconditional on status.  For a
stored alert that is already acknowledged (ids distinct),
`AlertRepository.acknowledge` with a second actor returns True and
overwrites acknowledged_by/acknowledged_at with the second actor and the
current clock; the single-use rule is enforced only by the service layer,
whose `acknowledge_alert` on the same state refuses with the
AlreadyAcknowledged message and leaves the store unchanged. -/
theorem c9_repo_acknowledge_unconditional (s : AlertState) (i : ℕ)
    (a : AlertRow) (u2 : String) (hnd : (s.alerts.map AlertRow.id).Nodup)
    (ha : a ∈ s.alerts) (hi : a.id = i)
    (hacked : a.status = "acknowledged") :
    (AlertRepository.acknowledge s i u2).1 = true ∧
    AlertRepository.get_by_id (AlertRepository.acknowledge s i u2).2 i =
      some { a with status := "acknowledged", acknowledged_by := some u2, acknowledged_at := some s.now } ∧
    (acknowledge_alert s i u2).1.success = false ∧
    (acknowledge_alert s i u2).1.error_message = some (alreadyAckMsg i) ∧
    (acknowledge_alert s i u2).2 = s := by
  subst hi
  have hupd := acknowledge_of_mem s a u2 hnd ha
  have hsvc : acknowledge_alert s a.id u2 =
      ({ success := false, data := Option.none, error_message := some (alreadyAckMsg a.id) }, s) := by
    conv_lhs => rw [acknowledge_alert.eq_def]
    rw [get_by_id_of_mem s a hnd ha]
    simp [hacked]
  refine ⟨by rw [hupd], ?_, by rw [hsvc], by rw [hsvc], by rw [hsvc]⟩
  rw [hupd]
  unfold AlertRepository.get_by_id
  rw [filter_id_map_update s.alerts a.id
    (fun x => { x with status := "acknowledged", acknowledged_by := some u2, acknowledged_at := some s.now })
    (fun x => rfl)]
  rw [filter_id_singleton hnd ha]
  simp

/-- C9 witness: instantiation of `c9_repo_acknowledge_unconditional` on a
store holding one alert already acknowledged by "alice"; the repository
call by "bob" succeeds and overwrites the stamp, the service call
refuses. -/
theorem c9_repo_acknowledge_unconditional_witness :
    (AlertRepository.acknowledge ⟨[⟨1, "EQ-1", "threshold_exceeded", "high", "msg", "acknowledged", some "alice", some 42, 10⟩], 2, ["EQ-1"], 99⟩ 1 "bob").1 = true ∧
    AlertRepository.get_by_id (AlertRepository.acknowledge ⟨[⟨1, "EQ-1", "threshold_exceeded", "high", "msg", "acknowledged", some "alice", some 42, 10⟩], 2, ["EQ-1"], 99⟩ 1 "bob").2 1 =
      some ⟨1, "EQ-1", "threshold_exceeded", "high", "msg", "acknowledged", some "bob", some 99, 10⟩ ∧
    (acknowledge_alert ⟨[⟨1, "EQ-1", "threshold_exceeded", "high", "msg", "acknowledged", some "alice", some 42, 10⟩], 2, ["EQ-1"], 99⟩ 1 "bob").1.success = false ∧
    (acknowledge_alert ⟨[⟨1, "EQ-1", "threshold_exceeded", "high", "msg", "acknowledged", some "alice", some 42, 10⟩], 2, ["EQ-1"], 99⟩ 1 "bob").1.error_message =
      some (alreadyAckMsg 1) ∧
    (acknowledge_alert ⟨[⟨1, "EQ-1", "threshold_exceeded", "high", "msg", "acknowledged", some "alice", some 42, 10⟩], 2, ["EQ-1"], 99⟩ 1 "bob").2 =
      ⟨[⟨1, "EQ-1", "threshold_exceeded", "high", "msg", "acknowledged", some "alice", some 42, 10⟩], 2, ["EQ-1"], 99⟩ := by
  exact c9_repo_acknowledge_unconditional
    ⟨[⟨1, "EQ-1", "threshold_exceeded", "high", "msg", "acknowledged", some "alice", some 42, 10⟩], 2, ["EQ-1"], 99⟩
    1 ⟨1, "EQ-1", "threshold_exceeded", "high", "msg", "acknowledged", some "alice", some 42, 10⟩
    "bob" (by simp) (by simp) rfl rfl

end ClaimsC9

section ClaimsC7

open AlertRepository AlertGenerator

/-- Validation of alert data succeeds on existing equipment, enum-valid
alert type and severity, and a non-empty message. -/
theorem validate_alert_data_ok (s : AlertState)
    (eqid aty sev msg : String) (heq : eqid ∈ s.equipment)
    (hat : aty ∈ VALID_ALERT_TYPES) (hsev : sev ∈ VALID_SEVERITIES)
    (hmsg : msg ≠ "") :
    validate_alert_data s eqid aty sev msg = .ok true := by
  unfold validate_alert_data
  rw [if_neg (by simpa using heq), if_neg (by simpa using hat),
    if_neg (by simpa using hsev), if_neg hmsg]

/-- C7: alert round-trip.  When `generate_alert` succeeds (equipment
exists, alert type and severity are enum members, message non-empty) on a
store whose row ids are all below the next id, the returned id resolves
via `get_by_id` to a record carrying exactly the four arguments, with
status active. -/
theorem c7_generate_roundtrip (s : AlertState) (eqid aty sev msg : String)
    (hfresh : ∀ a ∈ s.alerts, a.id < s.nextId)
    (heq : eqid ∈ s.equipment) (hat : aty ∈ VALID_ALERT_TYPES)
    (hsev : sev ∈ VALID_SEVERITIES) (hmsg : msg ≠ "") :
    ∃ i s2, generate_alert s eqid aty sev msg = .ok (i, s2) ∧
      AlertRepository.get_by_id s2 i =
        some { id := i, equipment_id := eqid, alert_type := aty, severity := sev, message := msg, status := "active", acknowledged_by := Option.none, acknowledged_at := Option.none, created_at := s.now } := by
  have hval := validate_alert_data_ok s eqid aty sev msg heq hat hsev hmsg
  refine ⟨s.nextId,
    { s with alerts := s.alerts ++ [{ id := s.nextId, equipment_id := eqid, alert_type := aty, severity := sev, message := msg, status := "active", acknowledged_by := Option.none, acknowledged_at := Option.none, created_at := s.now }],
             nextId := s.nextId + 1 }, ?_, ?_⟩
  · unfold generate_alert
    rw [hval]
    rfl
  · unfold AlertRepository.get_by_id
    rw [List.filter_append]
    have hnil : s.alerts.filter (fun x => x.id = s.nextId) = [] := by
      rw [List.filter_eq_nil_iff]
      intro x hx
      simp only [decide_eq_true_eq]
      exact Nat.ne_of_lt (hfresh x hx)
    rw [hnil]
    simp

/-- C7 witness: instantiation of `c7_generate_roundtrip` on an empty store. -/
theorem c7_generate_roundtrip_witness :
    ∃ i s2, generate_alert ⟨[], 1, ["EQ-1"], 42⟩ "EQ-1" "threshold_exceeded"
        "critical" "temperature too high" = .ok (i, s2) ∧
      AlertRepository.get_by_id s2 i =
        some { id := i, equipment_id := "EQ-1", alert_type := "threshold_exceeded", severity := "critical", message := "temperature too high", status := "active", acknowledged_by := Option.none, acknowledged_at := Option.none, created_at := 42 } := by
  exact c7_generate_roundtrip ⟨[], 1, ["EQ-1"], 42⟩ "EQ-1"
    "threshold_exceeded" "critical" "temperature too high"
    (by simp) (by simp) (by decide) (by decide) (by decide)

end ClaimsC7

section ClaimsC6

open AlertRepository AlertGenerator

/-- The repository UPDATE keeps every status in {active, acknowledged}. -/
theorem acknowledge_status_invariant (s : AlertState) (i : ℕ) (u : String)
    (hst : ∀ a ∈ s.alerts, a.status = "active" ∨ a.status = "acknowledged") :
    ∀ a ∈ (AlertRepository.acknowledge s i u).2.alerts,
      a.status = "active" ∨ a.status = "acknowledged" := by
  intro a hamem
  unfold AlertRepository.acknowledge at hamem
  simp only [List.mem_map] at hamem
  obtain ⟨x, hx, hxa⟩ := hamem
  by_cases h : x.id = i
  · rw [if_pos h] at hxa
    right
    rw [← hxa]
  · rw [if_neg h] at hxa
    exact hxa ▸ hst x hx

/-- The state after a service acknowledgment is the input state or the
repository-updated state. -/
theorem acknowledge_alert_snd (s : AlertState) (i : ℕ) (u : String) :
    (acknowledge_alert s i u).2 = s ∨
    (acknowledge_alert s i u).2 = (AlertRepository.acknowledge s i u).2 := by
  unfold acknowledge_alert
  rcases hg : AlertRepository.get_by_id s i with _ | alert
  · exact Or.inl rfl
  · by_cases hs : alert.status = "acknowledged"
    · left
      simp [hs]
    · right
      rcases hA : AlertRepository.acknowledge s i u with ⟨ok, s2⟩
      simp only [hs, hA, if_false]
      split <;> rfl

/-- Service acknowledgments keep every status in {active, acknowledged}. -/
theorem acknowledge_alert_status_invariant (s : AlertState) (i : ℕ) (u : String)
    (hst : ∀ a ∈ s.alerts, a.status = "active" ∨ a.status = "acknowledged") :
    ∀ a ∈ (acknowledge_alert s i u).2.alerts,
      a.status = "active" ∨ a.status = "acknowledged" := by
  rcases acknowledge_alert_snd s i u with h | h <;> rw [h]
  · exact hst
  · exact acknowledge_status_invariant s i u hst

/-- Acknowledging any list of (id, actor) pairs keeps every status in
{active, acknowledged}. -/
theorem ackAll_status_invariant (acks : List (ℕ × String)) (s : AlertState)
    (hst : ∀ a ∈ s.alerts, a.status = "active" ∨ a.status = "acknowledged") :
    ∀ a ∈ (ackAll s acks).alerts,
      a.status = "active" ∨ a.status = "acknowledged" := by
  induction acks generalizing s with
  | nil => exact hst
  | cons p acks ih =>
    exact ih (acknowledge_alert s p.1 p.2).2
      (acknowledge_alert_status_invariant s p.1 p.2 hst)

/-- Under the status invariant, the WHERE clause `status = 'active'`
selects exactly the non-acknowledged rows. -/
theorem filter_active_eq_not_acknowledged (l : List AlertRow)
    (hst : ∀ a ∈ l, a.status = "active" ∨ a.status = "acknowledged") :
    l.filter (fun a => a.status = "active") =
      l.filter (fun a => ¬ a.status = "acknowledged") := by
  apply List.filter_congr
  intro x hx
  rcases hst x hx with h | h <;> simp [h]

/-- C6: after acknowledging any subset of alerts through the service,
`get_active_alerts` returns exactly the alerts whose status is not
acknowledged — a permutation of that filter — sorted by the fixed
severity rank (critical=1, high=2, medium=3, low=4), ties broken by
creation time descending. -/
theorem c6_active_list_filter_sort (s : AlertState) (acks : List (ℕ × String))
    (hst : ∀ a ∈ s.alerts, a.status = "active" ∨ a.status = "acknowledged") :
    (AlertGenerator.get_active_alerts (ackAll s acks)).Perm
      ((ackAll s acks).alerts.filter (fun a => ¬ a.status = "acknowledged")) ∧
    List.Sorted activeOrder (AlertGenerator.get_active_alerts (ackAll s acks)) ∧
    severityRank "critical" = 1 ∧ severityRank "high" = 2 ∧
    severityRank "medium" = 3 ∧ severityRank "low" = 4 := by
  have hinv := ackAll_status_invariant acks s hst
  refine ⟨?_, ?_, rfl, rfl, rfl, rfl⟩
  · unfold AlertGenerator.get_active_alerts AlertRepository.get_active_alerts
    refine (List.perm_insertionSort _ _).trans ?_
    rw [filter_active_eq_not_acknowledged _ hinv]
  · unfold AlertGenerator.get_active_alerts AlertRepository.get_active_alerts
    exact List.sorted_insertionSort activeOrder _

/-- C6 witness: instantiation of `c6_active_list_filter_sort` on a store
with four alerts of mixed severities after acknowledging alert 2. -/
theorem c6_active_list_filter_sort_witness :
    (AlertGenerator.get_active_alerts (ackAll ⟨[⟨1, "E", "threshold_exceeded", "low", "m", "active", Option.none, Option.none, 5⟩, ⟨2, "E", "threshold_exceeded", "critical", "m", "active", Option.none, Option.none, 3⟩, ⟨3, "E", "threshold_exceeded", "critical", "m", "active", Option.none, Option.none, 9⟩, ⟨4, "E", "threshold_exceeded", "high", "m", "acknowledged", some "alice", some 1, 9⟩], 5, ["E"], 50⟩ [(2, "bob")])).Perm
      ((ackAll ⟨[⟨1, "E", "threshold_exceeded", "low", "m", "active", Option.none, Option.none, 5⟩, ⟨2, "E", "threshold_exceeded", "critical", "m", "active", Option.none, Option.none, 3⟩, ⟨3, "E", "threshold_exceeded", "critical", "m", "active", Option.none, Option.none, 9⟩, ⟨4, "E", "threshold_exceeded", "high", "m", "acknowledged", some "alice", some 1, 9⟩], 5, ["E"], 50⟩ [(2, "bob")]).alerts.filter
        (fun a => ¬ a.status = "acknowledged")) ∧
    List.Sorted activeOrder (AlertGenerator.get_active_alerts (ackAll ⟨[⟨1, "E", "threshold_exceeded", "low", "m", "active", Option.none, Option.none, 5⟩, ⟨2, "E", "threshold_exceeded", "critical", "m", "active", Option.none, Option.none, 3⟩, ⟨3, "E", "threshold_exceeded", "critical", "m", "active", Option.none, Option.none, 9⟩, ⟨4, "E", "threshold_exceeded", "high", "m", "acknowledged", some "alice", some 1, 9⟩], 5, ["E"], 50⟩ [(2, "bob")])) ∧
    severityRank "critical" = 1 ∧ severityRank "high" = 2 ∧
    severityRank "medium" = 3 ∧ severityRank "low" = 4 := by
  exact c6_active_list_filter_sort
    ⟨[⟨1, "E", "threshold_exceeded", "low", "m", "active", Option.none, Option.none, 5⟩, ⟨2, "E", "threshold_exceeded", "critical", "m", "active", Option.none, Option.none, 3⟩, ⟨3, "E", "threshold_exceeded", "critical", "m", "active", Option.none, Option.none, 9⟩, ⟨4, "E", "threshold_exceeded", "high", "m", "acknowledged", some "alice", some 1, 9⟩], 5, ["E"], 50⟩
    [(2, "bob")] (by simp)

end ClaimsC6
